import Mathlib

/-!
# VibeCode: the enhancement flow of `src/VibeCodeApp.jsx`

A shallow embedding of the `App` component's handlers.

* The eight `useState` cells are the record `UIState`.
* A handler reads the cells once, from the render it closes over, and from then
  on only calls setters with absolute values and performs external effects.  A
  handler is therefore a function from the state it was called on to the
  chronological list of `Event`s it performs; `Event.await` marks each point at
  which the handler is suspended and other handlers may run.
* `play` replays an event list on a state; its first argument says what other
  handlers do to the cells at each suspension point (`quiet`: nothing).
* The outside world (document store, generation service, clock) is the record
  `World`.
-/

namespace VibeCode

/-! ## Data model -/

/-- The identity object held in the `user` cell; only `uid` is read. -/
structure User where
  uid : String
deriving DecidableEq, Repr

/-- The `useState` cells of `App` (lines 21-28). -/
structure UIState where
  user : Option User
  loading : Bool
  vibe : String
  message : String
  isSaving : Bool
  inputImage : Option String
  generatedImage : Option String
  isEnhancing : Bool
deriving DecidableEq, Repr

/-- The initial values of the cells (lines 21-28). -/
def initialState : UIState :=
  { user := none, loading := true, vibe := "", message := "", isSaving := false,
    inputImage := none, generatedImage := none, isEnhancing := false }

/-- The object `{ mimeType, data }` of an inline image; a field may be absent. -/
structure InlineData where
  mimeType : Option String
  data : Option String
deriving DecidableEq, Repr

/-- One entry of a `parts` array: `{ text }` or `{ inlineData }`. -/
structure Part where
  text : Option String
  inlineData : Option InlineData
deriving DecidableEq, Repr

/-- One entry of the request's `contents` array. -/
structure Content where
  role : String
  parts : List Part
deriving DecidableEq, Repr

/-- The request body (lines 134-149). -/
structure Payload where
  contents : List Content
deriving DecidableEq, Repr

/-- The `content` object of a response candidate. -/
structure CandidateContent where
  parts : Option (List Part)
deriving DecidableEq, Repr

/-- One entry of the response's `candidates` array. -/
structure Candidate where
  content : Option CandidateContent
deriving DecidableEq, Repr

/-- The parsed JSON of a response, as far as line 163 reads it. -/
structure GenerateResult where
  candidates : Option (List Candidate)
deriving DecidableEq, Repr

/-- What one call of `fetch` leads to. -/
inductive FetchOutcome where
  /-- the `fetch` promise rejects -/
  | networkError
  /-- a response with this status; `body = none` when `response.json()` rejects -/
  | response (status : Nat) (body : Option GenerateResult)
deriving DecidableEq, Repr

/-- The values that reach `console.error` as the caught error. -/
inductive JsError where
  /-- `new Error("API request failed with status: ...")`, line 159 -/
  | badStatus (status : Nat)
  /-- `new Error("API response did not contain image data.")`, line 166 -/
  | noImageData
  /-- an error raised by a collaborator (network, store, identity provider) -/
  | external
deriving DecidableEq, Repr

/-- Everything a handler does, in the order it does it. -/
inductive Event where
  | setUser (u : Option User)
  | setLoading (b : Bool)
  | setVibe (t : String)
  | setMessage (m : String)
  | setInputImage (i : Option String)
  | setGeneratedImage (g : Option String)
  | setIsEnhancing (b : Bool)
  /-- `setDoc(doc(db, path), { text, lastUpdated }, { merge })` -/
  | setDoc (path : String) (text : String) (lastUpdated : Nat) (merge : Bool)
  /-- `onSnapshot(doc(db, path), ...)` -/
  | onSnapshot (path : String)
  /-- `fetch(url, { method, headers, body: JSON.stringify(body) })` -/
  | fetch (url : String) (method : String) (body : Payload)
  /-- `setTimeout(res, ms)` -/
  | setTimeout (ms : Nat)
  /-- `signOut(auth)` -/
  | signOut
  /-- `reader.readAsDataURL(file)` -/
  | readAsDataURL
  | consoleLog (label : String)
  | consoleError (label : String) (error : JsError)
  /-- a suspension point: the handler waits for a promise -/
  | await
deriving DecidableEq, Repr

/-- The collaborators of one run. -/
structure World where
  /-- the global `appId` (line 7) -/
  appId : String
  /-- the value of `new Date()` at line 120 -/
  now : Nat
  /-- whether the `setDoc` promise of line 118 rejects -/
  setDocFails : Bool
  /-- whether the `signOut` promise of line 80 rejects -/
  signOutFails : Bool
  /-- the outcome of the n-th call of `fetch` of a run, counted from 0 -/
  fetchOutcome : Nat → FetchOutcome

/-! ## Replaying events -/

/-- The effect of one event on the cells: a setter overwrites its cell,
everything else leaves the cells alone. -/
def applyEvent (s : UIState) : Event → UIState
  | .setUser u => { s with user := u }
  | .setLoading b => { s with loading := b }
  | .setVibe t => { s with vibe := t }
  | .setMessage m => { s with message := m }
  | .setInputImage i => { s with inputImage := i }
  | .setGeneratedImage g => { s with generatedImage := g }
  | .setIsEnhancing b => { s with isEnhancing := b }
  | _ => s

/-- Replay `evs` on `s`.  `others n` is what the other handlers do to the cells
while the run is suspended for the n-th time (counted from `n`). -/
def play (others : Nat → UIState → UIState) : List Event → Nat → UIState → UIState
  | [], _, s => s
  | .await :: es, n, s => play others es (n + 1) (others n s)
  | e :: es, n, s => play others es n (applyEvent s e)

/-- No other handler runs during the suspensions. -/
def quiet : Nat → UIState → UIState := fun _ s => s

/-! ## `handleEnhancePhoto` (lines 103-189) -/

/-- Line 129. -/
def maxRetries : Nat := 3

/-- Line 130. -/
def retryDelay : Nat := 1000

/-- Lines 150-151, with `apiKey = ""`. -/
def apiUrl : String :=
  "https://generativelanguage.googleapis.com/v1beta/models/gemini-2.5-flash-image-preview:generateContent?key="

/-- The document path of lines 38 and 117. -/
def vibeDocPath (appId uid : String) : String :=
  "/artifacts/" ++ appId ++ "/users/" ++ uid ++ "/vibeData/current"

/-- The pieces of a character list between occurrences of `sep`. -/
def splitChars (sep : Char) : List Char → List (List Char)
  | [] => [[]]
  | c :: cs =>
    if c = sep then [] :: splitChars sep cs
    else
      match splitChars sep cs with
      | [] => [[c]]
      | piece :: pieces => (c :: piece) :: pieces

/-- Line 113: `inputImage.split(',')[1]` (`none` for `undefined`). -/
def base64ImageDataOf (inputImage : String) : Option String :=
  ((splitChars ',' inputImage.data)[1]?).map String.mk

/-- Lines 134-149: the request body. -/
def payload (prompt : String) (base64ImageData : Option String) : Payload :=
  { contents :=
      [ { role := "user",
          parts :=
            [ { text := some prompt, inlineData := none },
              { text := none,
                inlineData := some { mimeType := some "image/png", data := base64ImageData } } ] } ] }

/-- The property `response.ok`: the status is in 200..299. -/
def responseOk (status : Nat) : Bool := 200 ≤ status && status ≤ 299

/-- Line 163:
`result?.candidates?.[0]?.content?.parts?.find(p => p.inlineData)?.inlineData?.data`. -/
def extractImageData (result : GenerateResult) : Option String :=
  result.candidates >>= fun cs =>
  cs.head? >>= fun c =>
  c.content >>= fun content =>
  content.parts >>= fun ps =>
  ps.find? (fun p => p.inlineData.isSome) >>= fun p =>
  p.inlineData >>= fun d =>
  d.data

/-- Whether the try block gets as far as `await response.json()` (line 162). -/
def reachesJson : FetchOutcome → Bool
  | .networkError => false
  | .response status _ => responseOk status

/-- Lines 152-167 after the call of `fetch`: the error thrown, or `base64Data`. -/
def tryBody : FetchOutcome → Except JsError String
  | .networkError => .error .external
  | .response status body =>
    if responseOk status then
      match body with
      | none => .error .external
      | some result =>
        match extractImageData result with
        | none => .error .noImageData
        | some base64Data => if base64Data = "" then .error .noImageData else .ok base64Data
    else .error (.badStatus status)

/-- Lines 132-180.  `retryCount` is the closure variable of line 128 at the
moment of the call.  Every activation calls `fetch` once and the catch block
increments `retryCount` once before the next activation, so this activation's
`fetch` is call number `retryCount` of the run.  The suspensions are those of
lines 152, 162 and 174, and, once the nested activation has returned, the
resumption of `await fetchWithRetry()` of line 175. -/
def fetchWithRetry (w : World) (prompt : String) (base64ImageData : Option String)
    (retryCount : Nat) : List Event :=
  [Event.fetch apiUrl "POST" (payload prompt base64ImageData), Event.await] ++
  (if reachesJson (w.fetchOutcome retryCount) then [Event.await] else []) ++
  match tryBody (w.fetchOutcome retryCount) with
  | .ok base64Data =>
    [Event.setGeneratedImage (some ("data:image/png;base64," ++ base64Data)),
     Event.setMessage "Photo enhanced successfully!"]
  | .error error =>
    Event.consoleError "API call error:" error ::
    if retryCount < maxRetries then
      [Event.setTimeout (retryDelay * 2 ^ (retryCount + 1 - 1)), Event.await] ++
      fetchWithRetry w prompt base64ImageData (retryCount + 1) ++
      [Event.await]
    else
      [Event.setMessage "Failed to enhance photo. Check the console for details."]
termination_by maxRetries - retryCount

/-- Lines 103-189.  The suspensions are those of line 118 and of the
activations of `fetchWithRetry`, and the resumption of `await fetchWithRetry()`
of line 181, after which the `finally` block runs.  The catch block of lines
183-185 is not represented: the try block of `fetchWithRetry` encloses every
call that can throw, and its own catch block throws nothing, so the promise
awaited at line 181 never rejects. -/
def handleEnhancePhoto (w : World) (s : UIState) : List Event :=
  match s.user, s.inputImage with
  | some user, some inputImage =>
    if inputImage = "" ∨ s.vibe = "" then
      [Event.setMessage "Please sign in, upload a photo, and write a prompt."]
    else
      [Event.setIsEnhancing true, Event.setGeneratedImage none,
       Event.setMessage "Enhancing photo..."] ++
      [Event.setDoc (vibeDocPath w.appId user.uid) s.vibe w.now true, Event.await] ++
      (if w.setDocFails then [Event.consoleError "Error saving prompt:" JsError.external]
       else []) ++
      fetchWithRetry w s.vibe (base64ImageDataOf inputImage) 0 ++
      [Event.await, Event.setIsEnhancing false]
  | _, _ => [Event.setMessage "Please sign in, upload a photo, and write a prompt."]

/-! ## The other handlers -/

/-- Line 288: the `disabled` attribute of the Enhance button. -/
def enhanceDisabled (s : UIState) : Bool :=
  s.user.isNone || s.isEnhancing || (s.inputImage.isNone || s.inputImage == some "") ||
    s.vibe == ""

/-- Lines 285-289: a click on the Enhance button.  A disabled button delivers
no click to its `onClick` handler. -/
def clickEnhance (w : World) (s : UIState) : List Event :=
  if enhanceDisabled s then [] else handleEnhancePhoto w s

/-- Lines 33-57: the listener passed to `onAuthStateChanged`.  The signed-in
branch ends in the `return` of line 50, so line 56 runs for `none` only. -/
def onAuthStateChanged (w : World) (currentUser : Option User) : List Event :=
  match currentUser with
  | some u =>
    [Event.setUser (some u), Event.consoleLog "User is signed in:",
     Event.onSnapshot (vibeDocPath w.appId u.uid)]
  | none =>
    [Event.consoleLog "User is signed out.", Event.setUser none, Event.setVibe ""] ++
    [Event.setLoading false]

/-- Lines 78-89. -/
def handleSignOut (w : World) : List Event :=
  [Event.signOut, Event.await] ++
  if w.signOutFails then
    [Event.consoleError "Sign out error:" JsError.external,
     Event.setMessage "Error signing out. Check the console for details."]
  else
    [Event.setMessage "Successfully signed out.", Event.setInputImage none,
     Event.setGeneratedImage none]

/-- A file picked in the file input: its type (empty when the browser knows
none), its content in base64, and whether reading it fails. -/
structure File where
  type : String
  base64 : String
  readFails : Bool := false
deriving DecidableEq, Repr

/-- The data URI that `FileReader.readAsDataURL` produces for a file it can
read; a file without a type is given `application/octet-stream`. -/
def dataURL (f : File) : String :=
  "data:" ++ (if f.type = "" then "application/octet-stream" else f.type) ++ ";base64," ++
    f.base64

/-- The property `reader.result` when `onloadend` fires: the data URI, or
`null` after a read error. -/
def readerResult (f : File) : Option String :=
  if f.readFails then none else some (dataURL f)

/-- Lines 91-101.  The setter of line 96 runs in the `onloadend` callback,
after the handler has returned. -/
def handleImageUpload (file : Option File) : List Event :=
  match file with
  | some f =>
    [Event.readAsDataURL, Event.setMessage "Image uploaded. Now add a prompt and enhance!",
     Event.await, Event.setInputImage (readerResult f)]
  | none => []

/-- What the header and the body render (lines 221-251 and 311). -/
inductive Screen where
  /-- "Initializing..." and the spinner -/
  | initializing
  /-- the user id, the Sign Out button and the main form -/
  | signedInForm
  /-- "Not signed in" and the main form -/
  | signedOutForm
deriving DecidableEq, Repr

/-- Lines 221-251. -/
def screen (s : UIState) : Screen :=
  if s.loading then .initializing
  else if s.user.isSome then .signedInForm
  else .signedOutForm

/-! ## Observations on event lists -/

/-- The number of remote invocation attempts. -/
def fetchCount (evs : List Event) : Nat :=
  (evs.filter fun e => match e with | .fetch _ _ _ => true | _ => false).length

/-- The waits, in milliseconds, in order. -/
def delays (evs : List Event) : List Nat :=
  evs.filterMap fun e => match e with | .setTimeout ms => some ms | _ => none

/-- The values passed to `setMessage`, in order. -/
def messages (evs : List Event) : List String :=
  evs.filterMap fun e => match e with | .setMessage m => some m | _ => none

/-- The values passed to `setGeneratedImage`, in order. -/
def generatedImages (evs : List Event) : List (Option String) :=
  evs.filterMap fun e => match e with | .setGeneratedImage g => some g | _ => none

/-- The document-store writes, in order. -/
def storeWrites (evs : List Event) : List Event :=
  evs.filter fun e => match e with | .setDoc _ _ _ _ => true | _ => false

/-- The request bodies sent, in order. -/
def requestBodies (evs : List Event) : List Payload :=
  evs.filterMap fun e => match e with | .fetch _ _ body => some body | _ => none

/-- The number of suspension points in an event list. -/
def awaitCount (evs : List Event) : Nat :=
  (evs.filter fun e => match e with | .await => true | _ => false).length

/-- No event sets the in-progress flag. -/
def noFlagWrite (evs : List Event) : Bool :=
  evs.all fun e => match e with | .setIsEnhancing _ => false | _ => true

/-- The cells at every suspension of a run of `evs` from `s`: on entering the
suspension, and after the other handlers have acted during it. -/
def inFlightStates (others : Nat → UIState → UIState) : List Event → Nat → UIState → List UIState
  | [], _, _ => []
  | .await :: es, n, s => s :: others n s :: inFlightStates others es (n + 1) (others n s)
  | e :: es, n, s => inFlightStates others es n (applyEvent s e)

/-- No document-store write and no remote invocation. -/
def noStoreOrRemote (evs : List Event) : Bool :=
  evs.all fun e => match e with | .setDoc _ _ _ _ => false | .fetch _ _ _ => false | _ => true

/-! ## Classes of inputs

The predicates below are not part of the program: they name the sets of
service outcomes and of cells that the properties quantify over. -/

/-- The attempt is one the catch block handles: the request is rejected, the
status is not 2xx, the body is not JSON, or line 163 finds no non-empty data. -/
def attemptFails : FetchOutcome → Bool
  | .networkError => true
  | .response _ none => true
  | .response status (some result) =>
    !responseOk status ||
      (match extractImageData result with
       | none => true
       | some d => d == "")

/-- An ok response whose image data is the non-empty string `d`. -/
def okWithImage (o : FetchOutcome) (d : String) : Bool :=
  match o with
  | .response status (some result) =>
    responseOk status && extractImageData result == some d && d != ""
  | _ => false

/-- A response with a non-2xx status. -/
def httpError : FetchOutcome → Bool
  | .response status _ => !responseOk status
  | .networkError => false

/-- An ok response without `candidates[0].content.parts[*].inlineData.data`:
the body is JSON and no part of the first candidate has inline data. -/
def okWithoutImageData : FetchOutcome → Bool
  | .response status (some result) =>
    responseOk status &&
      (match result.candidates >>= fun cs => cs.head? >>= fun c => c.content >>= fun k => k.parts with
       | none => true
       | some ps => ps.all fun p => (p.inlineData >>= fun d => d.data).isNone)
  | _ => false

/-- The cells hold an identity, a non-empty image and a non-empty prompt. -/
def validSubmission (s : UIState) : Bool :=
  s.user.isSome && (match s.inputImage with | some i => i != "" | none => false) && s.vibe != ""

/-- The world `w` with the generation service replaced by `f`. -/
def World.withService (w : World) (f : Nat → FetchOutcome) : World :=
  { w with fetchOutcome := f }

/-- The world `w` with the store write made to fail or not. -/
def World.withSetDocFails (w : World) (fails : Bool) : World :=
  { w with setDocFails := fails }

/-- What a successful sign-out does to the cells: `handleSignOut` and the
identity-change notification it causes. -/
def signOutEffect (w : World) (s : UIState) : UIState :=
  play quiet (handleSignOut w ++ onAuthStateChanged w none) 0 s

/-- The user signs out while the run is suspended for the j-th time; nothing
else happens during the run. -/
def signOutAt (w : World) (j : Nat) : Nat → UIState → UIState :=
  fun n s => if n = j then signOutEffect w s else s

/-! ## Sample inputs -/

/-- A JSON body whose first candidate carries one inline image with data `d`. -/
def bodyWithImage (d : String) : GenerateResult :=
  { candidates :=
      some [ { content :=
                 some { parts :=
                          some [ { text := none,
                                   inlineData := some { mimeType := some "image/png",
                                                        data := some d } } ] } } ] }

/-- A JSON body whose first candidate carries a text part only. -/
def bodyWithoutImage : GenerateResult :=
  { candidates :=
      some [ { content :=
                 some { parts := some [ { text := some "no image", inlineData := none } ] } } ] }

/-- A signed-in user with an uploaded JPEG and the prompt "neon glow". -/
def sampleState : UIState :=
  { user := some { uid := "u1" }, loading := false, vibe := "neon glow", message := "",
    isSaving := false, inputImage := some "data:image/jpeg;base64,/9j/4AAQ",
    generatedImage := none, isEnhancing := false }

/-- A world in which the store works and call `n` of `fetch` has outcome `f n`. -/
def worldWith (f : Nat → FetchOutcome) : World :=
  { appId := "default-app-id", now := 0, setDocFails := false, signOutFails := false,
    fetchOutcome := f }

/-- The service of the scenario: 500, 500, 500, then 200 with inline data. -/
def threeErrorsThenImage : Nat → FetchOutcome := fun n =>
  if n < 3 then .response 500 none else .response 200 (some (bodyWithImage "iVBORw0KGgo="))

/-- The service answers the first call with 200 and inline data. -/
def imageAtOnce : Nat → FetchOutcome := fun _ =>
  .response 200 (some (bodyWithImage "iVBORw0KGgo="))

/-- The cells while a request is in flight (after lines 108-110). -/
def inFlightState : UIState :=
  { sampleState with isEnhancing := true, message := "Enhancing photo..." }

/-! ## Unfolding `fetchWithRetry` -/

theorem fetchWithRetry_ok (w : World) (p : String) (b : Option String) (k : Nat) (d : String)
    (h : tryBody (w.fetchOutcome k) = .ok d) :
    fetchWithRetry w p b k =
      [Event.fetch apiUrl "POST" (payload p b), Event.await] ++
      (if reachesJson (w.fetchOutcome k) then [Event.await] else []) ++
      [Event.setGeneratedImage (some ("data:image/png;base64," ++ d)),
       Event.setMessage "Photo enhanced successfully!"] := by
  rw [fetchWithRetry, h]

theorem fetchWithRetry_retry (w : World) (p : String) (b : Option String) (k : Nat) (e : JsError)
    (h : tryBody (w.fetchOutcome k) = .error e) (hk : k < maxRetries) :
    fetchWithRetry w p b k =
      [Event.fetch apiUrl "POST" (payload p b), Event.await] ++
      (if reachesJson (w.fetchOutcome k) then [Event.await] else []) ++
      (Event.consoleError "API call error:" e ::
        ([Event.setTimeout (retryDelay * 2 ^ (k + 1 - 1)), Event.await] ++
          fetchWithRetry w p b (k + 1) ++ [Event.await])) := by
  rw [fetchWithRetry, h]
  simp [hk]

theorem fetchWithRetry_giveUp (w : World) (p : String) (b : Option String) (k : Nat)
    (e : JsError) (h : tryBody (w.fetchOutcome k) = .error e) (hk : ¬ k < maxRetries) :
    fetchWithRetry w p b k =
      [Event.fetch apiUrl "POST" (payload p b), Event.await] ++
      (if reachesJson (w.fetchOutcome k) then [Event.await] else []) ++
      [Event.consoleError "API call error:" e,
       Event.setMessage "Failed to enhance photo. Check the console for details."] := by
  rw [fetchWithRetry, h]
  simp [hk]

theorem tryBody_of_attemptFails (o : FetchOutcome) (h : attemptFails o = true) :
    ∃ e, tryBody o = .error e := by
  cases o with
  | networkError => exact ⟨_, rfl⟩
  | response status body =>
    cases body with
    | none =>
      by_cases hs : responseOk status = true
      · exact ⟨.external, by simp [tryBody, hs]⟩
      · exact ⟨.badStatus status, by simp [tryBody, hs]⟩
    | some result =>
      by_cases hs : responseOk status = true
      · cases hd : extractImageData result with
        | none => exact ⟨.noImageData, by simp [tryBody, hs, hd]⟩
        | some d =>
          have hd' : d = "" := by simpa [attemptFails, hs, hd] using h
          exact ⟨.noImageData, by simp [tryBody, hs, hd, hd']⟩
      · exact ⟨.badStatus status, by simp [tryBody, hs]⟩

theorem tryBody_of_okWithImage (o : FetchOutcome) (d : String) (h : okWithImage o d = true) :
    tryBody o = .ok d ∧ reachesJson o = true := by
  cases o with
  | networkError => simp [okWithImage] at h
  | response status body =>
    cases body with
    | none => simp [okWithImage] at h
    | some result =>
      simp only [okWithImage, Bool.and_eq_true, beq_iff_eq, bne_iff_ne, ne_eq] at h
      obtain ⟨⟨hs, hd⟩, hne⟩ := h
      simp [tryBody, reachesJson, hs, hd, hne]

theorem attemptFails_of_httpError (o : FetchOutcome) (h : httpError o = true) :
    attemptFails o = true := by
  cases o with
  | networkError => rfl
  | response status body =>
    cases body with
    | none => rfl
    | some result =>
      simp only [httpError] at h
      simp [attemptFails, h]

/-! ## Observations and replay on compound lists -/

@[simp] theorem fetchCount_append (a b : List Event) :
    fetchCount (a ++ b) = fetchCount a + fetchCount b := by
  simp [fetchCount]

@[simp] theorem delays_append (a b : List Event) : delays (a ++ b) = delays a ++ delays b := by
  simp [delays]

@[simp] theorem messages_append (a b : List Event) :
    messages (a ++ b) = messages a ++ messages b := by
  simp [messages]

@[simp] theorem generatedImages_append (a b : List Event) :
    generatedImages (a ++ b) = generatedImages a ++ generatedImages b := by
  simp [generatedImages]

@[simp] theorem storeWrites_append (a b : List Event) :
    storeWrites (a ++ b) = storeWrites a ++ storeWrites b := by
  simp [storeWrites]

@[simp] theorem fetchCount_nil : fetchCount [] = 0 := rfl

@[simp] theorem delays_nil : delays [] = [] := rfl

@[simp] theorem messages_nil : messages [] = [] := rfl

@[simp] theorem generatedImages_nil : generatedImages [] = [] := rfl

@[simp] theorem storeWrites_nil : storeWrites [] = [] := rfl

@[simp] theorem fetchCount_cons (e : Event) (es : List Event) :
    fetchCount (e :: es) =
      (match e with | .fetch _ _ _ => 1 | _ => 0) + fetchCount es := by
  cases e <;> simp [fetchCount, Nat.add_comm]

@[simp] theorem delays_cons (e : Event) (es : List Event) :
    delays (e :: es) = (match e with | .setTimeout ms => [ms] | _ => []) ++ delays es := by
  cases e <;> simp [delays]

@[simp] theorem messages_cons (e : Event) (es : List Event) :
    messages (e :: es) = (match e with | .setMessage m => [m] | _ => []) ++ messages es := by
  cases e <;> simp [messages]

@[simp] theorem generatedImages_cons (e : Event) (es : List Event) :
    generatedImages (e :: es) =
      (match e with | .setGeneratedImage g => [g] | _ => []) ++ generatedImages es := by
  cases e <;> simp [generatedImages]

@[simp] theorem storeWrites_cons (e : Event) (es : List Event) :
    storeWrites (e :: es) =
      (match e with | .setDoc _ _ _ _ => [e] | _ => []) ++ storeWrites es := by
  cases e <;> simp [storeWrites]

@[simp] theorem fetchCount_jsonAwait (c : Bool) :
    fetchCount (if c = true then [Event.await] else []) = 0 := by
  cases c <;> rfl

@[simp] theorem delays_jsonAwait (c : Bool) :
    delays (if c = true then [Event.await] else []) = [] := by
  cases c <;> rfl

@[simp] theorem messages_jsonAwait (c : Bool) :
    messages (if c = true then [Event.await] else []) = [] := by
  cases c <;> rfl

@[simp] theorem generatedImages_jsonAwait (c : Bool) :
    generatedImages (if c = true then [Event.await] else []) = [] := by
  cases c <;> rfl

@[simp] theorem storeWrites_jsonAwait (c : Bool) :
    storeWrites (if c = true then [Event.await] else []) = [] := by
  cases c <;> rfl

theorem play_append (others : Nat → UIState → UIState) (a b : List Event) :
    ∀ (n : Nat) (s : UIState),
      play others (a ++ b) n s = play others b (n + awaitCount a) (play others a n s) := by
  induction a with
  | nil => intro n s; simp [play, awaitCount]
  | cons e es ih =>
    intro n s
    cases e <;> simp [play, awaitCount, ih, Nat.add_assoc, Nat.add_comm 1]

theorem play_quiet (evs : List Event) :
    ∀ (n : Nat) (s : UIState), play quiet evs n s = evs.foldl applyEvent s := by
  induction evs with
  | nil => intro n s; rfl
  | cons e es ih =>
    intro n s
    cases e <;> simp [play, ih, quiet, applyEvent]

@[simp] theorem foldl_applyEvent_jsonAwait (c : Bool) (s : UIState) :
    List.foldl applyEvent s (if c = true then [Event.await] else []) = s := by
  cases c <;> rfl

/-! ## The shape of a run -/

/-- The events of a valid submission: the three setters of lines 108-110, the
store write, the attempts, the resumption of line 181 and the `finally` block. -/
theorem handleEnhancePhoto_valid (w : World) (s : UIState) (user : User) (img : String)
    (hu : s.user = some user) (hi : s.inputImage = some img) (hne : img ≠ "")
    (hv : s.vibe ≠ "") :
    handleEnhancePhoto w s =
      [Event.setIsEnhancing true, Event.setGeneratedImage none,
       Event.setMessage "Enhancing photo...",
       Event.setDoc (vibeDocPath w.appId user.uid) s.vibe w.now true] ++
      ([Event.await] ++
        (if w.setDocFails = true then [Event.consoleError "Error saving prompt:" JsError.external]
         else [])) ++
      fetchWithRetry w s.vibe (base64ImageDataOf img) 0 ++
      [Event.await, Event.setIsEnhancing false] := by
  simp [handleEnhancePhoto, hu, hi, hne, hv]

/-- When attempts `j .. k-1` fail and attempt `k` finds image data `d`, the
activation with `retryCount = j` performs `k - j + 1` calls of `fetch` and the
waits before retries `j+1 .. k`, then the two setters of lines 168-169, and
after them only the resumptions of line 175. -/
theorem fetchWithRetry_succeeds (w : World) (p : String) (b : Option String) (d : String)
    (k : Nat) (hk : k ≤ maxRetries)
    (hfail : ∀ i, i < k → attemptFails (w.fetchOutcome i) = true)
    (hok : okWithImage (w.fetchOutcome k) d = true) :
    ∀ (m j : Nat), j + m = k →
      ∃ pre post, fetchWithRetry w p b j =
          pre ++ [Event.setGeneratedImage (some ("data:image/png;base64," ++ d)),
                  Event.setMessage "Photo enhanced successfully!"] ++ post ∧
        fetchCount pre = m + 1 ∧
        delays pre = (List.range' (j + 1) m).map (fun r => retryDelay * 2 ^ (r - 1)) ∧
        messages pre = [] ∧ generatedImages pre = [] ∧ storeWrites pre = [] ∧
        (∀ s, List.foldl applyEvent s pre = s) ∧
        post = List.replicate m Event.await := by
  intro m
  induction m with
  | zero =>
    intro j hj
    have hjk : j = k := by omega
    subst hjk
    obtain ⟨hb, -⟩ := tryBody_of_okWithImage _ _ hok
    refine ⟨[Event.fetch apiUrl "POST" (payload p b), Event.await] ++
        (if reachesJson (w.fetchOutcome j) then [Event.await] else []), [],
      by rw [fetchWithRetry_ok w p b j d hb]; simp, ?_, ?_, ?_, ?_, ?_, ?_, rfl⟩
    · simp
    · simp
    · simp
    · simp
    · simp
    · intro s; simp [applyEvent]
  | succ m ih =>
    intro j hj
    obtain ⟨e, he⟩ := tryBody_of_attemptFails _ (hfail j (by omega))
    obtain ⟨pre, post, hpre, hc, hd, hm, hg, hs, hf, hpost⟩ := ih (j + 1) (by omega)
    refine ⟨[Event.fetch apiUrl "POST" (payload p b), Event.await] ++
        (if reachesJson (w.fetchOutcome j) then [Event.await] else []) ++
        (Event.consoleError "API call error:" e ::
          ([Event.setTimeout (retryDelay * 2 ^ (j + 1 - 1)), Event.await] ++ pre)),
        post ++ [Event.await], ?_, ?_, ?_, ?_, ?_, ?_, ?_, ?_⟩
    · rw [fetchWithRetry_retry w p b j e he (by omega), hpre]
      simp
    · simp [hc]; omega
    · simp [hd, List.range'_succ]
    · simp [hm]
    · simp [hg]
    · simp [hs]
    · intro s; simp [hf, applyEvent]
    · rw [hpost, List.replicate_succ']

/-- When attempts `j .. maxRetries` all fail, the activation with
`retryCount = j` performs `maxRetries - j + 1` calls of `fetch` and the waits
before retries `j+1 .. maxRetries`, then sets the failure message of line 177,
and after it only the resumptions of line 175. -/
theorem fetchWithRetry_exhausts (w : World) (p : String) (b : Option String)
    (hfail : ∀ i, i ≤ maxRetries → attemptFails (w.fetchOutcome i) = true) :
    ∀ (m j : Nat), j + m = maxRetries →
      ∃ pre post, fetchWithRetry w p b j =
          pre ++ [Event.setMessage "Failed to enhance photo. Check the console for details."] ++
            post ∧
        fetchCount pre = m + 1 ∧
        delays pre = (List.range' (j + 1) m).map (fun r => retryDelay * 2 ^ (r - 1)) ∧
        messages pre = [] ∧ generatedImages pre = [] ∧ storeWrites pre = [] ∧
        (∀ s, List.foldl applyEvent s pre = s) ∧
        post = List.replicate m Event.await := by
  intro m
  induction m with
  | zero =>
    intro j hj
    obtain ⟨e, he⟩ := tryBody_of_attemptFails _ (hfail j (by omega))
    refine ⟨[Event.fetch apiUrl "POST" (payload p b), Event.await] ++
        (if reachesJson (w.fetchOutcome j) then [Event.await] else []) ++
        [Event.consoleError "API call error:" e], [], ?_, ?_, ?_, ?_, ?_, ?_, ?_, rfl⟩
    · rw [fetchWithRetry_giveUp w p b j e he (by omega)]
      simp
    · simp
    · simp
    · simp
    · simp
    · simp
    · intro s; simp [applyEvent]
  | succ m ih =>
    intro j hj
    obtain ⟨e, he⟩ := tryBody_of_attemptFails _ (hfail j (by omega))
    obtain ⟨pre, post, hpre, hc, hd, hm, hg, hs, hf, hpost⟩ := ih (j + 1) (by omega)
    refine ⟨[Event.fetch apiUrl "POST" (payload p b), Event.await] ++
        (if reachesJson (w.fetchOutcome j) then [Event.await] else []) ++
        (Event.consoleError "API call error:" e ::
          ([Event.setTimeout (retryDelay * 2 ^ (j + 1 - 1)), Event.await] ++ pre)),
        post ++ [Event.await], ?_, ?_, ?_, ?_, ?_, ?_, ?_, ?_⟩
    · rw [fetchWithRetry_retry w p b j e he (by omega), hpre]
      simp
    · simp [hc]; omega
    · simp [hd, List.range'_succ]
    · simp [hm]
    · simp [hg]
    · simp [hs]
    · intro s; simp [hf, applyEvent]
    · rw [hpost, List.replicate_succ']

@[simp] theorem fetchCount_replicate_await (m : Nat) :
    fetchCount (List.replicate m Event.await) = 0 := by
  induction m with
  | zero => rfl
  | succ m ih => simp [List.replicate_succ, ih]

@[simp] theorem delays_replicate_await (m : Nat) :
    delays (List.replicate m Event.await) = [] := by
  induction m with
  | zero => rfl
  | succ m ih => simp [List.replicate_succ, ih]

@[simp] theorem messages_replicate_await (m : Nat) :
    messages (List.replicate m Event.await) = [] := by
  induction m with
  | zero => rfl
  | succ m ih => simp [List.replicate_succ, ih]

@[simp] theorem generatedImages_replicate_await (m : Nat) :
    generatedImages (List.replicate m Event.await) = [] := by
  induction m with
  | zero => rfl
  | succ m ih => simp [List.replicate_succ, ih]

@[simp] theorem foldl_applyEvent_replicate_await (m : Nat) (s : UIState) :
    List.foldl applyEvent s (List.replicate m Event.await) = s := by
  induction m with
  | zero => rfl
  | succ m ih => simp [List.replicate_succ, ih, applyEvent]

theorem foldl_applyEvent_saveError (c : Bool) (s : UIState) :
    List.foldl applyEvent s
      (if c = true then [Event.consoleError "Error saving prompt:" JsError.external] else []) = s := by
  cases c <;> rfl

/-! ## Retry and backoff -/

/-- The run of a valid submission whose four attempts all fail. -/
theorem handleEnhancePhoto_exhausted (w : World) (s : UIState) (user : User)
    (img : String) (hu : s.user = some user) (hi : s.inputImage = some img) (hne : img ≠ "")
    (hv : s.vibe ≠ "")
    (hfail : ∀ n, n < 4 → attemptFails (w.fetchOutcome n) = true) :
    delays (handleEnhancePhoto w s) = [1000, 2000, 4000] ∧
    (∀ k, 1 ≤ k → k ≤ 3 → (delays (handleEnhancePhoto w s))[k - 1]? = some (1000 * 2 ^ (k - 1))) ∧
    fetchCount (handleEnhancePhoto w s) = 4 ∧
    messages (handleEnhancePhoto w s) =
      ["Enhancing photo...", "Failed to enhance photo. Check the console for details."] ∧
    generatedImages (handleEnhancePhoto w s) = [none] ∧
    (play quiet (handleEnhancePhoto w s) 0 s).message =
      "Failed to enhance photo. Check the console for details." ∧
    (play quiet (handleEnhancePhoto w s) 0 s).generatedImage = none ∧
    (play quiet (handleEnhancePhoto w s) 0 s).isEnhancing = false := by
  obtain ⟨pre, post, hpre, hc, hd, hm, hg, -, hf, hpost⟩ :=
    fetchWithRetry_exhausts w s.vibe (base64ImageDataOf img)
      (fun i hi => hfail i (by simp only [maxRetries] at hi; omega)) 3 0 rfl
  subst hpost
  have hdel : delays (handleEnhancePhoto w s) = [1000, 2000, 4000] := by
    rw [handleEnhancePhoto_valid w s user img hu hi hne hv, hpre]
    cases w.setDocFails <;> simp [hd, retryDelay, List.range']
  refine ⟨hdel, ?_, ?_, ?_, ?_, ?_, ?_, ?_⟩
  · intro k h1 h3
    rw [hdel]
    interval_cases k <;> rfl
  · rw [handleEnhancePhoto_valid w s user img hu hi hne hv, hpre]
    cases w.setDocFails <;> simp [hc]
  · rw [handleEnhancePhoto_valid w s user img hu hi hne hv, hpre]
    cases w.setDocFails <;> simp [hm]
  · rw [handleEnhancePhoto_valid w s user img hu hi hne hv, hpre]
    cases w.setDocFails <;> simp [hg]
  · rw [play_quiet, handleEnhancePhoto_valid w s user img hu hi hne hv, hpre]
    cases w.setDocFails <;> simp [hf, applyEvent]
  · rw [play_quiet, handleEnhancePhoto_valid w s user img hu hi hne hv, hpre]
    cases w.setDocFails <;> simp [hf, applyEvent]
  · rw [play_quiet, handleEnhancePhoto_valid w s user img hu hi hne hv, hpre]
    cases w.setDocFails <;> simp [hf, applyEvent]

/-- C1: on a valid submission in which all four attempts fail, the waits are
1000, 2000 and 4000 ms (1000 * 2^(k-1) before retry k), exactly four calls of
`fetch` are made, and the run ends with the failure message of line 177, no
generated image and the in-progress flag cleared. -/
theorem handleEnhancePhoto_all_attempts_fail (w : World) (s : UIState) (user : User)
    (img : String) (hu : s.user = some user) (hi : s.inputImage = some img) (hne : img ≠ "")
    (hv : s.vibe ≠ "")
    (hfail : ∀ n, n < 4 → attemptFails (w.fetchOutcome n) = true) :
    delays (handleEnhancePhoto w s) = [1000, 2000, 4000] ∧
    (∀ k, 1 ≤ k → k ≤ 3 → (delays (handleEnhancePhoto w s))[k - 1]? = some (1000 * 2 ^ (k - 1))) ∧
    fetchCount (handleEnhancePhoto w s) = 4 ∧
    messages (handleEnhancePhoto w s) =
      ["Enhancing photo...", "Failed to enhance photo. Check the console for details."] ∧
    generatedImages (handleEnhancePhoto w s) = [none] ∧
    (play quiet (handleEnhancePhoto w s) 0 s).message =
      "Failed to enhance photo. Check the console for details." ∧
    (play quiet (handleEnhancePhoto w s) 0 s).generatedImage = none ∧
    (play quiet (handleEnhancePhoto w s) 0 s).isEnhancing = false :=
  handleEnhancePhoto_exhausted w s user img hu hi hne hv hfail

/-- Instance of C1: the service answers 500 to every call. -/
theorem handleEnhancePhoto_all_attempts_fail_witness :
    (∀ n, n < 4 → attemptFails ((worldWith fun _ => .response 500 none).fetchOutcome n) = true) ∧
    delays (handleEnhancePhoto (worldWith fun _ => .response 500 none) sampleState) =
      [1000, 2000, 4000] ∧
    fetchCount (handleEnhancePhoto (worldWith fun _ => .response 500 none) sampleState) = 4 ∧
    (play quiet (handleEnhancePhoto (worldWith fun _ => .response 500 none) sampleState) 0
      sampleState).message = "Failed to enhance photo. Check the console for details." :=
  have h := handleEnhancePhoto_all_attempts_fail (worldWith fun _ => .response 500 none)
    sampleState { uid := "u1" } "data:image/jpeg;base64,/9j/4AAQ" rfl rfl (by decide) (by decide)
    (fun _ _ => rfl)
  ⟨fun _ _ => rfl, h.1, h.2.2.1, h.2.2.2.2.2.1⟩

/-- C2: on a valid submission in which the first k attempts fail (k in 0..3)
and attempt k+1 is an ok response with non-empty image data d, exactly k+1
calls of `fetch` are made, the waits are 1000 * 2^(i-1) ms for i = 1..k, and
the run ends with the image "data:image/png;base64," ++ d, the success message
and the in-progress flag cleared. -/
theorem handleEnhancePhoto_succeeds_after_failures (w : World) (s : UIState) (user : User)
    (img : String) (d : String) (k : Nat)
    (hu : s.user = some user) (hi : s.inputImage = some img) (hne : img ≠ "")
    (hv : s.vibe ≠ "") (hk : k ≤ 3)
    (hfail : ∀ i, i < k → attemptFails (w.fetchOutcome i) = true)
    (hok : okWithImage (w.fetchOutcome k) d = true) :
    fetchCount (handleEnhancePhoto w s) = k + 1 ∧
    delays (handleEnhancePhoto w s) = (List.range' 1 k).map (fun i => 1000 * 2 ^ (i - 1)) ∧
    messages (handleEnhancePhoto w s) = ["Enhancing photo...", "Photo enhanced successfully!"] ∧
    (play quiet (handleEnhancePhoto w s) 0 s).generatedImage =
      some ("data:image/png;base64," ++ d) ∧
    (play quiet (handleEnhancePhoto w s) 0 s).message = "Photo enhanced successfully!" ∧
    (play quiet (handleEnhancePhoto w s) 0 s).isEnhancing = false := by
  obtain ⟨pre, post, hpre, hc, hd, hm, -, -, hf, hpost⟩ :=
    fetchWithRetry_succeeds w s.vibe (base64ImageDataOf img) d k hk hfail hok k 0 (by omega)
  subst hpost
  refine ⟨?_, ?_, ?_, ?_, ?_, ?_⟩
  · rw [handleEnhancePhoto_valid w s user img hu hi hne hv, hpre]
    cases w.setDocFails <;> simp [hc]
  · rw [handleEnhancePhoto_valid w s user img hu hi hne hv, hpre]
    cases w.setDocFails <;> simp [hd, retryDelay]
  · rw [handleEnhancePhoto_valid w s user img hu hi hne hv, hpre]
    cases w.setDocFails <;> simp [hm]
  · rw [play_quiet, handleEnhancePhoto_valid w s user img hu hi hne hv, hpre]
    cases w.setDocFails <;> simp [hf, applyEvent]
  · rw [play_quiet, handleEnhancePhoto_valid w s user img hu hi hne hv, hpre]
    cases w.setDocFails <;> simp [hf, applyEvent]
  · rw [play_quiet, handleEnhancePhoto_valid w s user img hu hi hne hv, hpre]
    cases w.setDocFails <;> simp [hf, applyEvent]

/-- Instance of C2: 500, 500, 500, then 200 with inline data gives the waits
1000, 2000, 4000 and the generated image. -/
theorem handleEnhancePhoto_succeeds_after_failures_witness :
    okWithImage ((worldWith threeErrorsThenImage).fetchOutcome 3) "iVBORw0KGgo=" = true ∧
    fetchCount (handleEnhancePhoto (worldWith threeErrorsThenImage) sampleState) = 4 ∧
    delays (handleEnhancePhoto (worldWith threeErrorsThenImage) sampleState) =
      [1000, 2000, 4000] ∧
    (play quiet (handleEnhancePhoto (worldWith threeErrorsThenImage) sampleState) 0
      sampleState).generatedImage = some "data:image/png;base64,iVBORw0KGgo=" ∧
    (play quiet (handleEnhancePhoto (worldWith threeErrorsThenImage) sampleState) 0
      sampleState).message = "Photo enhanced successfully!" :=
  have h := handleEnhancePhoto_succeeds_after_failures (worldWith threeErrorsThenImage)
    sampleState { uid := "u1" } "data:image/jpeg;base64,/9j/4AAQ" "iVBORw0KGgo=" 3 rfl rfl
    (by decide) (by decide) (by decide)
    (fun i hi => by interval_cases i <;> rfl) (by decide)
  ⟨by decide, h.1, h.2.1, h.2.2.2.1, h.2.2.2.2.1⟩

/-! ## Validation -/

/-- C3: when the identity is none, or no image is present, or the prompt is
empty, `handleEnhancePhoto` only sets the validation message: it writes
nothing to the store, calls no remote service, and leaves every other cell
(the in-progress flag and the generated image among them) as it was. -/
theorem handleEnhancePhoto_rejects_incomplete (w : World) (s : UIState)
    (h : s.user = none ∨ s.inputImage = none ∨ s.vibe = "") :
    handleEnhancePhoto w s =
      [Event.setMessage "Please sign in, upload a photo, and write a prompt."] ∧
    noStoreOrRemote (handleEnhancePhoto w s) = true ∧
    fetchCount (handleEnhancePhoto w s) = 0 ∧
    storeWrites (handleEnhancePhoto w s) = [] ∧
    ∀ (others : Nat → UIState → UIState) (n : Nat),
      play others (handleEnhancePhoto w s) n s =
        { s with message := "Please sign in, upload a photo, and write a prompt." } := by
  have hev : handleEnhancePhoto w s =
      [Event.setMessage "Please sign in, upload a photo, and write a prompt."] := by
    unfold handleEnhancePhoto
    rcases h with h | h | h
    · simp [h]
    · rw [h]
      cases s.user <;> rfl
    · cases s.user <;> cases s.inputImage <;> simp [h]
  refine ⟨hev, ?_, ?_, ?_, ?_⟩
  · rw [hev]; rfl
  · rw [hev]; rfl
  · rw [hev]; rfl
  · intro others n
    rw [hev]; rfl

/-- Instance of C3: an empty prompt with an image and an identity present. -/
theorem handleEnhancePhoto_rejects_incomplete_witness :
    ({ sampleState with vibe := "" } : UIState).vibe = "" ∧
    handleEnhancePhoto (worldWith threeErrorsThenImage) { sampleState with vibe := "" } =
      [Event.setMessage "Please sign in, upload a photo, and write a prompt."] ∧
    fetchCount
      (handleEnhancePhoto (worldWith threeErrorsThenImage) { sampleState with vibe := "" }) = 0 :=
  have h := handleEnhancePhoto_rejects_incomplete (worldWith threeErrorsThenImage)
    { sampleState with vibe := "" } (Or.inr (Or.inr rfl))
  ⟨rfl, h.1, h.2.2.1⟩

/-! ## Persistence happens once -/

/-- One activation of `fetchWithRetry`, given what the next one does: no store
write, and one call of `fetch` more than there are waits. -/
theorem fetchWithRetry_step (w : World) (p : String) (b : Option String) (j : Nat)
    (ih : j < maxRetries →
      storeWrites (fetchWithRetry w p b (j + 1)) = [] ∧
      fetchCount (fetchWithRetry w p b (j + 1)) =
        (delays (fetchWithRetry w p b (j + 1))).length + 1 ∧
      (delays (fetchWithRetry w p b (j + 1))).length ≤ maxRetries - (j + 1)) :
    storeWrites (fetchWithRetry w p b j) = [] ∧
    fetchCount (fetchWithRetry w p b j) = (delays (fetchWithRetry w p b j)).length + 1 ∧
    (delays (fetchWithRetry w p b j)).length ≤ maxRetries - j := by
  cases hb : tryBody (w.fetchOutcome j) with
  | ok d =>
    rw [fetchWithRetry_ok w p b j d hb]
    simp
  | error e =>
    by_cases hlt : j < maxRetries
    · obtain ⟨h1, h2, h3⟩ := ih hlt
      rw [fetchWithRetry_retry w p b j e hb hlt]
      simp [h1, h2]
      omega
    · rw [fetchWithRetry_giveUp w p b j e hb hlt]
      simp

theorem fetchWithRetry_effects (w : World) (p : String) (b : Option String) :
    ∀ (m j : Nat), maxRetries - j = m →
      storeWrites (fetchWithRetry w p b j) = [] ∧
      fetchCount (fetchWithRetry w p b j) = (delays (fetchWithRetry w p b j)).length + 1 ∧
      (delays (fetchWithRetry w p b j)).length ≤ maxRetries - j := by
  intro m
  induction m with
  | zero =>
    intro j hj
    exact fetchWithRetry_step w p b j (fun hlt => absurd hlt (by omega))
  | succ m ih =>
    intro j hj
    exact fetchWithRetry_step w p b j (fun _ => ih (j + 1) (by omega))

/-- C5: on a valid submission, whatever the service answers, the run writes
the prompt to the store exactly once, as a merge write of the prompt text to
the submitting identity's document; the write comes before the first call of
`fetch` and is not repeated by any of the (0 to 3) retries. -/
theorem handleEnhancePhoto_persists_once (w : World) (s : UIState) (user : User) (img : String)
    (hu : s.user = some user) (hi : s.inputImage = some img) (hne : img ≠ "")
    (hv : s.vibe ≠ "") :
    storeWrites (handleEnhancePhoto w s) =
      [Event.setDoc (vibeDocPath w.appId user.uid) s.vibe w.now true] ∧
    ∃ rest,
      handleEnhancePhoto w s =
        [Event.setIsEnhancing true, Event.setGeneratedImage none,
         Event.setMessage "Enhancing photo...",
         Event.setDoc (vibeDocPath w.appId user.uid) s.vibe w.now true] ++ rest ∧
      storeWrites rest = [] ∧
      1 ≤ fetchCount rest ∧
      fetchCount rest = (delays rest).length + 1 ∧
      (delays rest).length ≤ 3 := by
  obtain ⟨h1, h2, h3⟩ := fetchWithRetry_effects w s.vibe (base64ImageDataOf img) 3 0 rfl
  refine ⟨?_, _, handleEnhancePhoto_valid w s user img hu hi hne hv, ?_, ?_, ?_, ?_⟩
  · rw [handleEnhancePhoto_valid w s user img hu hi hne hv]
    cases w.setDocFails <;> simp [h1]
  · cases w.setDocFails <;> simp [h1]
  · cases w.setDocFails <;> simp [h2]
  · cases w.setDocFails <;> simp [h2]
  · cases w.setDocFails <;> simpa [maxRetries] using h3

/-- Instance of C5: three retries, one store write. -/
theorem handleEnhancePhoto_persists_once_witness :
    sampleState.vibe ≠ "" ∧
    storeWrites (handleEnhancePhoto (worldWith threeErrorsThenImage) sampleState) =
      [Event.setDoc "/artifacts/default-app-id/users/u1/vibeData/current" "neon glow" 0 true] :=
  ⟨by decide,
   (handleEnhancePhoto_persists_once (worldWith threeErrorsThenImage) sampleState
      { uid := "u1" } "data:image/jpeg;base64,/9j/4AAQ" rfl rfl (by decide) (by decide)).1⟩

/-! ## A response without image data counts as an HTTP error -/

theorem extractImageData_of_okWithoutImageData (status : Nat) (result : GenerateResult)
    (h : okWithoutImageData (.response status (some result)) = true) :
    responseOk status = true ∧ extractImageData result = none := by
  obtain ⟨cands⟩ := result
  simp only [okWithoutImageData, Bool.and_eq_true] at h
  refine ⟨h.1, ?_⟩
  have h2 := h.2
  cases cands with
  | none => rfl
  | some cs =>
    cases cs with
    | nil => rfl
    | cons c rest =>
      obtain ⟨content⟩ := c
      cases content with
      | none => rfl
      | some k =>
        obtain ⟨parts⟩ := k
        cases parts with
        | none => rfl
        | some ps =>
          have hall : ps.all (fun p => (p.inlineData >>= fun d => d.data).isNone) = true := by
            simpa using h2
          cases hfind : ps.find? (fun p => p.inlineData.isSome) with
          | none => simp [extractImageData, hfind]
          | some q =>
            have hq := (List.all_eq_true.mp hall) q (List.mem_of_find?_eq_some hfind)
            have hq' : (q.inlineData >>= fun d => d.data) = none := by
              simpa using hq
            simpa [extractImageData, hfind] using hq'

theorem attemptFails_of_okWithoutImageData (o : FetchOutcome)
    (h : okWithoutImageData o = true) : attemptFails o = true := by
  cases o with
  | networkError => rfl
  | response status body =>
    cases body with
    | none => rfl
    | some result =>
      obtain ⟨-, h2⟩ := extractImageData_of_okWithoutImageData status result h
      simp [attemptFails, h2]

/-- One activation of `fetchWithRetry` in two worlds whose outcome for this
call is the same or fails in both, given that the next activations agree. -/
theorem fetchWithRetry_congr_step (w w' : World) (p : String) (b : Option String) (j : Nat)
    (hrel : w'.fetchOutcome j = w.fetchOutcome j ∨
      (attemptFails (w.fetchOutcome j) = true ∧ attemptFails (w'.fetchOutcome j) = true))
    (ih : j < maxRetries →
      fetchCount (fetchWithRetry w' p b (j + 1)) = fetchCount (fetchWithRetry w p b (j + 1)) ∧
      delays (fetchWithRetry w' p b (j + 1)) = delays (fetchWithRetry w p b (j + 1)) ∧
      messages (fetchWithRetry w' p b (j + 1)) = messages (fetchWithRetry w p b (j + 1)) ∧
      generatedImages (fetchWithRetry w' p b (j + 1)) =
        generatedImages (fetchWithRetry w p b (j + 1)) ∧
      ∀ s, List.foldl applyEvent s (fetchWithRetry w' p b (j + 1)) =
        List.foldl applyEvent s (fetchWithRetry w p b (j + 1))) :
    fetchCount (fetchWithRetry w' p b j) = fetchCount (fetchWithRetry w p b j) ∧
    delays (fetchWithRetry w' p b j) = delays (fetchWithRetry w p b j) ∧
    messages (fetchWithRetry w' p b j) = messages (fetchWithRetry w p b j) ∧
    generatedImages (fetchWithRetry w' p b j) = generatedImages (fetchWithRetry w p b j) ∧
    ∀ s, List.foldl applyEvent s (fetchWithRetry w' p b j) =
      List.foldl applyEvent s (fetchWithRetry w p b j) := by
  have key : (∃ d, tryBody (w.fetchOutcome j) = .ok d ∧ tryBody (w'.fetchOutcome j) = .ok d) ∨
      (∃ e e', tryBody (w.fetchOutcome j) = .error e ∧
        tryBody (w'.fetchOutcome j) = .error e') := by
    rcases hrel with heq | ⟨h1, h2⟩
    · rw [heq]
      cases hb : tryBody (w.fetchOutcome j) with
      | ok d => exact Or.inl ⟨d, rfl, rfl⟩
      | error e => exact Or.inr ⟨e, e, rfl, rfl⟩
    · obtain ⟨e, he⟩ := tryBody_of_attemptFails _ h1
      obtain ⟨e', he'⟩ := tryBody_of_attemptFails _ h2
      exact Or.inr ⟨e, e', he, he'⟩
  rcases key with ⟨d, hb, hb'⟩ | ⟨e, e', hb, hb'⟩
  · rw [fetchWithRetry_ok w p b j d hb, fetchWithRetry_ok w' p b j d hb']
    simp [applyEvent]
  · by_cases hlt : j < maxRetries
    · obtain ⟨h1, h2, h3, h4, h5⟩ := ih hlt
      rw [fetchWithRetry_retry w p b j e hb hlt, fetchWithRetry_retry w' p b j e' hb' hlt]
      simp [h1, h2, h3, h4, h5, applyEvent]
    · rw [fetchWithRetry_giveUp w p b j e hb hlt, fetchWithRetry_giveUp w' p b j e' hb' hlt]
      simp [applyEvent]

theorem fetchWithRetry_congr (w w' : World) (p : String) (b : Option String)
    (hrel : ∀ n, w'.fetchOutcome n = w.fetchOutcome n ∨
      (attemptFails (w.fetchOutcome n) = true ∧ attemptFails (w'.fetchOutcome n) = true)) :
    ∀ (m j : Nat), maxRetries - j = m →
      fetchCount (fetchWithRetry w' p b j) = fetchCount (fetchWithRetry w p b j) ∧
      delays (fetchWithRetry w' p b j) = delays (fetchWithRetry w p b j) ∧
      messages (fetchWithRetry w' p b j) = messages (fetchWithRetry w p b j) ∧
      generatedImages (fetchWithRetry w' p b j) = generatedImages (fetchWithRetry w p b j) ∧
      ∀ s, List.foldl applyEvent s (fetchWithRetry w' p b j) =
        List.foldl applyEvent s (fetchWithRetry w p b j) := by
  intro m
  induction m with
  | zero =>
    intro j hj
    exact fetchWithRetry_congr_step w w' p b j (hrel j) (fun hlt => absurd hlt (by omega))
  | succ m ih =>
    intro j hj
    exact fetchWithRetry_congr_step w w' p b j (hrel j) (fun _ => ih (j + 1) (by omega))

theorem validSubmission_iff (s : UIState) (h : validSubmission s = true) :
    ∃ user img, s.user = some user ∧ s.inputImage = some img ∧ img ≠ "" ∧ s.vibe ≠ "" := by
  unfold validSubmission at h
  cases hu : s.user with
  | none => simp [hu] at h
  | some user =>
    cases hi : s.inputImage with
    | none => simp [hi] at h
    | some img =>
      refine ⟨user, img, rfl, rfl, ?_, ?_⟩
      · intro hne; simp [hi, hne] at h
      · intro hv; simp [hv] at h

theorem handleEnhancePhoto_invalid (w : World) (s : UIState) (h : validSubmission s = false) :
    handleEnhancePhoto w s =
      [Event.setMessage "Please sign in, upload a photo, and write a prompt."] := by
  unfold validSubmission at h
  unfold handleEnhancePhoto
  cases hu : s.user with
  | none => rfl
  | some user =>
    cases hi : s.inputImage with
    | none => rfl
    | some img =>
      by_cases hne : img = ""
      · simp [hne]
      · by_cases hv : s.vibe = ""
        · simp [hv]
        · simp [hu, hi, hne, hv] at h

/-- C4: replacing any non-2xx response by an ok response without
candidates[0].content.parts[*].inlineData.data, or the reverse, changes
neither the number of attempts, nor the waits, nor the messages shown, nor the
images stored, nor the final cells; in particular a service that only returns
such ok responses is retried three times and then ends in the failure
message with no generated image. -/
theorem handleEnhancePhoto_missing_image_as_http_error (w : World) (f : Nat → FetchOutcome)
    (s : UIState)
    (hrel : ∀ n, f n = w.fetchOutcome n ∨
      (httpError (w.fetchOutcome n) = true ∧ okWithoutImageData (f n) = true) ∨
      (okWithoutImageData (w.fetchOutcome n) = true ∧ httpError (f n) = true)) :
    fetchCount (handleEnhancePhoto (w.withService f) s) = fetchCount (handleEnhancePhoto w s) ∧
    delays (handleEnhancePhoto (w.withService f) s) = delays (handleEnhancePhoto w s) ∧
    messages (handleEnhancePhoto (w.withService f) s) = messages (handleEnhancePhoto w s) ∧
    generatedImages (handleEnhancePhoto (w.withService f) s) =
      generatedImages (handleEnhancePhoto w s) ∧
    play quiet (handleEnhancePhoto (w.withService f) s) 0 s =
      play quiet (handleEnhancePhoto w s) 0 s ∧
    (validSubmission s = true → (∀ n, n < 4 → okWithoutImageData (f n) = true) →
      fetchCount (handleEnhancePhoto (w.withService f) s) = 4 ∧
      delays (handleEnhancePhoto (w.withService f) s) = [1000, 2000, 4000] ∧
      (play quiet (handleEnhancePhoto (w.withService f) s) 0 s).message =
        "Failed to enhance photo. Check the console for details." ∧
      (play quiet (handleEnhancePhoto (w.withService f) s) 0 s).generatedImage = none) := by
  have hlast : validSubmission s = true → (∀ n, n < 4 → okWithoutImageData (f n) = true) →
      fetchCount (handleEnhancePhoto (w.withService f) s) = 4 ∧
      delays (handleEnhancePhoto (w.withService f) s) = [1000, 2000, 4000] ∧
      (play quiet (handleEnhancePhoto (w.withService f) s) 0 s).message =
        "Failed to enhance photo. Check the console for details." ∧
      (play quiet (handleEnhancePhoto (w.withService f) s) 0 s).generatedImage = none := by
    intro hvalid hall
    obtain ⟨user, img, hu, hi, hne, hv⟩ := validSubmission_iff s hvalid
    have h := handleEnhancePhoto_exhausted (w.withService f) s user img hu hi hne hv
      (fun n hn => attemptFails_of_okWithoutImageData _ (hall n hn))
    exact ⟨h.2.2.1, h.1, h.2.2.2.2.2.1, h.2.2.2.2.2.2.1⟩
  cases hvalid : validSubmission s with
  | false =>
    rw [handleEnhancePhoto_invalid w s hvalid, handleEnhancePhoto_invalid (w.withService f) s hvalid]
    exact ⟨rfl, rfl, rfl, rfl, rfl, fun h => by simp at h⟩
  | true =>
    obtain ⟨user, img, hu, hi, hne, hv⟩ := validSubmission_iff s hvalid
    have hrel' : ∀ n, (w.withService f).fetchOutcome n = w.fetchOutcome n ∨
        (attemptFails (w.fetchOutcome n) = true ∧
          attemptFails ((w.withService f).fetchOutcome n) = true) := by
      intro n
      rcases hrel n with h | ⟨h1, h2⟩ | ⟨h1, h2⟩
      · exact Or.inl h
      · exact Or.inr ⟨attemptFails_of_httpError _ h1, attemptFails_of_okWithoutImageData _ h2⟩
      · exact Or.inr ⟨attemptFails_of_okWithoutImageData _ h1, attemptFails_of_httpError _ h2⟩
    obtain ⟨h1, h2, h3, h4, h5⟩ :=
      fetchWithRetry_congr w (w.withService f) s.vibe (base64ImageDataOf img) hrel' 3 0 rfl
    have hfields : (w.withService f).setDocFails = w.setDocFails ∧
        (w.withService f).appId = w.appId ∧ (w.withService f).now = w.now := ⟨rfl, rfl, rfl⟩
    refine ⟨?_, ?_, ?_, ?_, ?_, fun _ => hlast hvalid⟩
    · rw [handleEnhancePhoto_valid w s user img hu hi hne hv,
        handleEnhancePhoto_valid (w.withService f) s user img hu hi hne hv]
      simp [h1, hfields]
    · rw [handleEnhancePhoto_valid w s user img hu hi hne hv,
        handleEnhancePhoto_valid (w.withService f) s user img hu hi hne hv]
      simp [h2, hfields]
    · rw [handleEnhancePhoto_valid w s user img hu hi hne hv,
        handleEnhancePhoto_valid (w.withService f) s user img hu hi hne hv]
      simp [h3, hfields]
    · rw [handleEnhancePhoto_valid w s user img hu hi hne hv,
        handleEnhancePhoto_valid (w.withService f) s user img hu hi hne hv]
      simp [h4, hfields]
    · rw [play_quiet, play_quiet, handleEnhancePhoto_valid w s user img hu hi hne hv,
        handleEnhancePhoto_valid (w.withService f) s user img hu hi hne hv]
      simp [h5, hfields]

/-- Instance of C4: every 500 replaced by a 200 whose parts carry text only. -/
theorem handleEnhancePhoto_missing_image_as_http_error_witness :
    httpError ((worldWith fun _ => .response 500 none).fetchOutcome 0) = true ∧
    okWithoutImageData (.response 200 (some bodyWithoutImage)) = true ∧
    fetchCount (handleEnhancePhoto
        ((worldWith fun _ => .response 500 none).withService
          fun _ => .response 200 (some bodyWithoutImage)) sampleState) =
      fetchCount (handleEnhancePhoto (worldWith fun _ => .response 500 none) sampleState) ∧
    delays (handleEnhancePhoto
        ((worldWith fun _ => .response 500 none).withService
          fun _ => .response 200 (some bodyWithoutImage)) sampleState) = [1000, 2000, 4000] :=
  have h := handleEnhancePhoto_missing_image_as_http_error
    (worldWith fun _ => .response 500 none) (fun _ => .response 200 (some bodyWithoutImage))
    sampleState (fun _ => Or.inr (Or.inl ⟨rfl, rfl⟩))
  ⟨rfl, rfl, h.1, (h.2.2.2.2.2 rfl (fun _ _ => rfl)).2.1⟩

/-! ## A failed store write -/

/-- The run of a valid submission that finds image data at attempt `k + 1`,
with no other handler interleaved. -/
theorem handleEnhancePhoto_succeeded (w : World) (s : UIState) (user : User) (img : String)
    (d : String) (k : Nat)
    (hu : s.user = some user) (hi : s.inputImage = some img) (hne : img ≠ "")
    (hv : s.vibe ≠ "") (hk : k ≤ 3)
    (hfail : ∀ i, i < k → attemptFails (w.fetchOutcome i) = true)
    (hok : okWithImage (w.fetchOutcome k) d = true) :
    fetchCount (handleEnhancePhoto w s) = k + 1 ∧
    messages (handleEnhancePhoto w s) = ["Enhancing photo...", "Photo enhanced successfully!"] ∧
    (play quiet (handleEnhancePhoto w s) 0 s).generatedImage =
      some ("data:image/png;base64," ++ d) ∧
    (play quiet (handleEnhancePhoto w s) 0 s).message = "Photo enhanced successfully!" ∧
    (play quiet (handleEnhancePhoto w s) 0 s).isEnhancing = false := by
  obtain ⟨pre, post, hpre, hc, -, hm, -, -, hf, hpost⟩ :=
    fetchWithRetry_succeeds w s.vibe (base64ImageDataOf img) d k hk hfail hok k 0 (by omega)
  subst hpost
  refine ⟨?_, ?_, ?_, ?_, ?_⟩
  · rw [handleEnhancePhoto_valid w s user img hu hi hne hv, hpre]
    cases w.setDocFails <;> simp [hc]
  · rw [handleEnhancePhoto_valid w s user img hu hi hne hv, hpre]
    cases w.setDocFails <;> simp [hm]
  · rw [play_quiet, handleEnhancePhoto_valid w s user img hu hi hne hv, hpre]
    cases w.setDocFails <;> simp [hf, applyEvent]
  · rw [play_quiet, handleEnhancePhoto_valid w s user img hu hi hne hv, hpre]
    cases w.setDocFails <;> simp [hf, applyEvent]
  · rw [play_quiet, handleEnhancePhoto_valid w s user img hu hi hne hv, hpre]
    cases w.setDocFails <;> simp [hf, applyEvent]

/-- Every activation of `fetchWithRetry` starts with the call of `fetch`. -/
theorem fetchWithRetry_head (w : World) (p : String) (b : Option String) (j : Nat) :
    ∃ rest, fetchWithRetry w p b j =
      Event.fetch apiUrl "POST" (payload p b) :: Event.await :: rest := by
  rw [fetchWithRetry]
  exact ⟨_, rfl⟩

/-- The cells at the end of a quiet run do not depend on whether the store
write failed. -/
theorem play_quiet_withSetDocFails (w : World) (s : UIState) (fails : Bool) :
    play quiet (handleEnhancePhoto (w.withSetDocFails fails) s) 0 s =
      play quiet (handleEnhancePhoto w s) 0 s ∧
    messages (handleEnhancePhoto (w.withSetDocFails fails) s) =
      messages (handleEnhancePhoto w s) := by
  cases hvalid : validSubmission s with
  | false =>
    rw [handleEnhancePhoto_invalid w s hvalid,
      handleEnhancePhoto_invalid (w.withSetDocFails fails) s hvalid]
    exact ⟨rfl, rfl⟩
  | true =>
    obtain ⟨user, img, hu, hi, hne, hv⟩ := validSubmission_iff s hvalid
    obtain ⟨-, -, h3, -, h5⟩ :=
      fetchWithRetry_congr w (w.withSetDocFails fails) s.vibe (base64ImageDataOf img)
        (fun _ => Or.inl rfl) 3 0 rfl
    have hfields : (w.withSetDocFails fails).setDocFails = fails ∧
        (w.withSetDocFails fails).appId = w.appId ∧ (w.withSetDocFails fails).now = w.now :=
      ⟨rfl, rfl, rfl⟩
    rw [play_quiet, play_quiet, handleEnhancePhoto_valid w s user img hu hi hne hv,
      handleEnhancePhoto_valid (w.withSetDocFails fails) s user img hu hi hne hv]
    constructor
    · cases fails <;> cases w.setDocFails <;> simp [h5, hfields, applyEvent]
    · cases fails <;> cases w.setDocFails <;> simp [h3, hfields]

/-- Refutes C6 as stated: with the store write failing and the first attempt
succeeding, the only messages shown are "Enhancing photo..." and the success
message, and the final cells equal those of the run whose store write
succeeded; the failure reaches the console only. -/
theorem persistence_failure_not_in_cells :
    Event.consoleError "Error saving prompt:" JsError.external ∈
      handleEnhancePhoto ((worldWith imageAtOnce).withSetDocFails true) sampleState ∧
    messages (handleEnhancePhoto ((worldWith imageAtOnce).withSetDocFails true) sampleState) =
      ["Enhancing photo...", "Photo enhanced successfully!"] ∧
    play quiet (handleEnhancePhoto ((worldWith imageAtOnce).withSetDocFails true) sampleState) 0
        sampleState =
      play quiet (handleEnhancePhoto (worldWith imageAtOnce) sampleState) 0 sampleState ∧
    play quiet (handleEnhancePhoto ((worldWith imageAtOnce).withSetDocFails true) sampleState) 0
        sampleState =
      { sampleState with
        generatedImage := some "data:image/png;base64,iVBORw0KGgo=",
        message := "Photo enhanced successfully!" } := by
  have hev : handleEnhancePhoto ((worldWith imageAtOnce).withSetDocFails true) sampleState =
      [Event.setIsEnhancing true, Event.setGeneratedImage none,
       Event.setMessage "Enhancing photo...",
       Event.setDoc "/artifacts/default-app-id/users/u1/vibeData/current" "neon glow" 0 true,
       Event.await, Event.consoleError "Error saving prompt:" JsError.external,
       Event.fetch apiUrl "POST" (payload "neon glow" (some "/9j/4AAQ")), Event.await,
       Event.await, Event.setGeneratedImage (some "data:image/png;base64,iVBORw0KGgo="),
       Event.setMessage "Photo enhanced successfully!", Event.await,
       Event.setIsEnhancing false] := by
    rw [handleEnhancePhoto_valid _ sampleState { uid := "u1" } "data:image/jpeg;base64,/9j/4AAQ"
      rfl rfl (by decide) (by decide),
      fetchWithRetry_ok ((worldWith imageAtOnce).withSetDocFails true) sampleState.vibe
        (base64ImageDataOf "data:image/jpeg;base64,/9j/4AAQ") 0 "iVBORw0KGgo=" rfl]
    rfl
  have hev2 : handleEnhancePhoto (worldWith imageAtOnce) sampleState =
      [Event.setIsEnhancing true, Event.setGeneratedImage none,
       Event.setMessage "Enhancing photo...",
       Event.setDoc "/artifacts/default-app-id/users/u1/vibeData/current" "neon glow" 0 true,
       Event.await,
       Event.fetch apiUrl "POST" (payload "neon glow" (some "/9j/4AAQ")), Event.await,
       Event.await, Event.setGeneratedImage (some "data:image/png;base64,iVBORw0KGgo="),
       Event.setMessage "Photo enhanced successfully!", Event.await,
       Event.setIsEnhancing false] := by
    rw [handleEnhancePhoto_valid _ sampleState { uid := "u1" } "data:image/jpeg;base64,/9j/4AAQ"
      rfl rfl (by decide) (by decide),
      fetchWithRetry_ok (worldWith imageAtOnce) sampleState.vibe
        (base64ImageDataOf "data:image/jpeg;base64,/9j/4AAQ") 0 "iVBORw0KGgo=" rfl]
    rfl
  rw [hev, hev2]
  exact ⟨by simp, rfl, rfl, rfl⟩

/-- C6, amended: when the store write fails on a valid submission and the
invocation then succeeds (at attempt k+1, k in 0..3), the write is followed by
a console error and by the calls of `fetch`, the run ends with the generated
image and the success message, and neither the messages shown nor the final
cells differ from those of the run whose store write succeeded. -/
theorem handleEnhancePhoto_persistence_failure_logged_only (w : World) (s : UIState)
    (user : User) (img : String) (d : String) (k : Nat)
    (hu : s.user = some user) (hi : s.inputImage = some img) (hne : img ≠ "")
    (hv : s.vibe ≠ "") (hk : k ≤ 3)
    (hsave : w.setDocFails = true)
    (hfail : ∀ i, i < k → attemptFails (w.fetchOutcome i) = true)
    (hok : okWithImage (w.fetchOutcome k) d = true) :
    (∃ rest, handleEnhancePhoto w s =
      [Event.setIsEnhancing true, Event.setGeneratedImage none,
       Event.setMessage "Enhancing photo...",
       Event.setDoc (vibeDocPath w.appId user.uid) s.vibe w.now true, Event.await,
       Event.consoleError "Error saving prompt:" JsError.external,
       Event.fetch apiUrl "POST" (payload s.vibe (base64ImageDataOf img))] ++ rest) ∧
    fetchCount (handleEnhancePhoto w s) = k + 1 ∧
    messages (handleEnhancePhoto w s) = ["Enhancing photo...", "Photo enhanced successfully!"] ∧
    (play quiet (handleEnhancePhoto w s) 0 s).generatedImage =
      some ("data:image/png;base64," ++ d) ∧
    (play quiet (handleEnhancePhoto w s) 0 s).message = "Photo enhanced successfully!" ∧
    play quiet (handleEnhancePhoto w s) 0 s =
      play quiet (handleEnhancePhoto (w.withSetDocFails false) s) 0 s ∧
    messages (handleEnhancePhoto w s) =
      messages (handleEnhancePhoto (w.withSetDocFails false) s) := by
  have h := handleEnhancePhoto_succeeded w s user img d k hu hi hne hv hk hfail hok
  have h2 := play_quiet_withSetDocFails w s false
  refine ⟨?_, h.1, h.2.1, h.2.2.1, h.2.2.2.1, h2.1.symm, h2.2.symm⟩
  obtain ⟨rest, hrest⟩ := fetchWithRetry_head w s.vibe (base64ImageDataOf img) 0
  rw [handleEnhancePhoto_valid w s user img hu hi hne hv, hsave, hrest]
  exact ⟨_, rfl⟩

/-- Instance of amended C6: the store is down, the first attempt succeeds. -/
theorem handleEnhancePhoto_persistence_failure_logged_only_witness :
    ((worldWith imageAtOnce).withSetDocFails true).setDocFails = true ∧
    messages (handleEnhancePhoto ((worldWith imageAtOnce).withSetDocFails true) sampleState) =
      ["Enhancing photo...", "Photo enhanced successfully!"] ∧
    (play quiet (handleEnhancePhoto ((worldWith imageAtOnce).withSetDocFails true) sampleState) 0
      sampleState).generatedImage = some "data:image/png;base64,iVBORw0KGgo=" :=
  have h := handleEnhancePhoto_persistence_failure_logged_only
    ((worldWith imageAtOnce).withSetDocFails true) sampleState { uid := "u1" }
    "data:image/jpeg;base64,/9j/4AAQ" "iVBORw0KGgo=" 0 rfl rfl (by decide) (by decide)
    (by decide) rfl (fun i hi => absurd hi (by omega)) (by decide)
  ⟨rfl, h.2.2.1, h.2.2.2.1⟩

/-- The events of the sample submission when the first attempt succeeds. -/
theorem handleEnhancePhoto_imageAtOnce (s : UIState) (hu : s.user = some { uid := "u1" })
    (hi : s.inputImage = some "data:image/jpeg;base64,/9j/4AAQ") (hv : s.vibe = "neon glow") :
    handleEnhancePhoto (worldWith imageAtOnce) s =
      [Event.setIsEnhancing true, Event.setGeneratedImage none,
       Event.setMessage "Enhancing photo...",
       Event.setDoc "/artifacts/default-app-id/users/u1/vibeData/current" "neon glow" 0 true,
       Event.await,
       Event.fetch apiUrl "POST" (payload "neon glow" (some "/9j/4AAQ")), Event.await,
       Event.await, Event.setGeneratedImage (some "data:image/png;base64,iVBORw0KGgo="),
       Event.setMessage "Photo enhanced successfully!", Event.await,
       Event.setIsEnhancing false] := by
  rw [handleEnhancePhoto_valid _ s { uid := "u1" } "data:image/jpeg;base64,/9j/4AAQ"
      hu hi (by decide) (by rw [hv]; decide),
    fetchWithRetry_ok (worldWith imageAtOnce) s.vibe
      (base64ImageDataOf "data:image/jpeg;base64,/9j/4AAQ") 0 "iVBORw0KGgo=" rfl, hv]
  rfl

/-- The events of the sample submission when the service always answers 500. -/
theorem handleEnhancePhoto_always500 (s : UIState) (hu : s.user = some { uid := "u1" })
    (hi : s.inputImage = some "data:image/jpeg;base64,/9j/4AAQ") (hv : s.vibe = "neon glow") :
    handleEnhancePhoto (worldWith fun _ => .response 500 none) s =
      [Event.setIsEnhancing true, Event.setGeneratedImage none,
       Event.setMessage "Enhancing photo...",
       Event.setDoc "/artifacts/default-app-id/users/u1/vibeData/current" "neon glow" 0 true,
       Event.await,
       Event.fetch apiUrl "POST" (payload "neon glow" (some "/9j/4AAQ")), Event.await,
       Event.consoleError "API call error:" (JsError.badStatus 500),
       Event.setTimeout 1000, Event.await,
       Event.fetch apiUrl "POST" (payload "neon glow" (some "/9j/4AAQ")), Event.await,
       Event.consoleError "API call error:" (JsError.badStatus 500),
       Event.setTimeout 2000, Event.await,
       Event.fetch apiUrl "POST" (payload "neon glow" (some "/9j/4AAQ")), Event.await,
       Event.consoleError "API call error:" (JsError.badStatus 500),
       Event.setTimeout 4000, Event.await,
       Event.fetch apiUrl "POST" (payload "neon glow" (some "/9j/4AAQ")), Event.await,
       Event.consoleError "API call error:" (JsError.badStatus 500),
       Event.setMessage "Failed to enhance photo. Check the console for details.",
       Event.await, Event.await, Event.await, Event.await,
       Event.setIsEnhancing false] := by
  rw [handleEnhancePhoto_valid _ s { uid := "u1" } "data:image/jpeg;base64,/9j/4AAQ"
      hu hi (by decide) (by rw [hv]; decide),
    fetchWithRetry_retry (worldWith fun _ => .response 500 none) s.vibe
      (base64ImageDataOf "data:image/jpeg;base64,/9j/4AAQ") 0 (JsError.badStatus 500) rfl
      (by decide),
    fetchWithRetry_retry (worldWith fun _ => .response 500 none) s.vibe
      (base64ImageDataOf "data:image/jpeg;base64,/9j/4AAQ") 1 (JsError.badStatus 500) rfl
      (by decide),
    fetchWithRetry_retry (worldWith fun _ => .response 500 none) s.vibe
      (base64ImageDataOf "data:image/jpeg;base64,/9j/4AAQ") 2 (JsError.badStatus 500) rfl
      (by decide),
    fetchWithRetry_giveUp (worldWith fun _ => .response 500 none) s.vibe
      (base64ImageDataOf "data:image/jpeg;base64,/9j/4AAQ") 3 (JsError.badStatus 500) rfl
      (by decide), hv]
  rfl

/-! ## Submitting while a request is in flight -/

@[simp] theorem noFlagWrite_nil : noFlagWrite [] = true := rfl

@[simp] theorem noFlagWrite_append (a b : List Event) :
    noFlagWrite (a ++ b) = (noFlagWrite a && noFlagWrite b) := by
  simp [noFlagWrite]

@[simp] theorem noFlagWrite_cons (e : Event) (es : List Event) :
    noFlagWrite (e :: es) =
      ((match e with | .setIsEnhancing _ => false | _ => true) && noFlagWrite es) := by
  simp [noFlagWrite]

@[simp] theorem noFlagWrite_jsonAwait (c : Bool) :
    noFlagWrite (if c = true then [Event.await] else []) = true := by
  cases c <;> rfl

/-- One activation of `fetchWithRetry` never sets the in-progress flag, given
that the next one does not. -/
theorem noFlagWrite_fetchWithRetry_step (w : World) (p : String) (b : Option String) (j : Nat)
    (ih : j < maxRetries → noFlagWrite (fetchWithRetry w p b (j + 1)) = true) :
    noFlagWrite (fetchWithRetry w p b j) = true := by
  cases hb : tryBody (w.fetchOutcome j) with
  | ok d =>
    rw [fetchWithRetry_ok w p b j d hb]
    simp
  | error e =>
    by_cases hlt : j < maxRetries
    · rw [fetchWithRetry_retry w p b j e hb hlt]
      simp [ih hlt]
    · rw [fetchWithRetry_giveUp w p b j e hb hlt]
      simp

theorem noFlagWrite_fetchWithRetry (w : World) (p : String) (b : Option String) :
    ∀ (m j : Nat), maxRetries - j = m → noFlagWrite (fetchWithRetry w p b j) = true := by
  intro m
  induction m with
  | zero =>
    intro j hj
    exact noFlagWrite_fetchWithRetry_step w p b j (fun hlt => absurd hlt (by omega))
  | succ m ih =>
    intro j hj
    exact noFlagWrite_fetchWithRetry_step w p b j (fun _ => ih (j + 1) (by omega))

/-- The other handlers of the component never set the in-progress flag. -/
theorem noFlagWrite_otherHandlers (w : World) (currentUser : Option User)
    (file : Option File) :
    noFlagWrite (handleSignOut w) = true ∧
    noFlagWrite (onAuthStateChanged w currentUser) = true ∧
    noFlagWrite (handleImageUpload file) = true := by
  refine ⟨?_, ?_, ?_⟩
  · unfold handleSignOut
    cases w.signOutFails <;> rfl
  · cases currentUser <;> rfl
  · cases file <;> rfl

theorem inFlightStates_append (others : Nat → UIState → UIState) (a b : List Event) :
    ∀ (n : Nat) (s : UIState),
      inFlightStates others (a ++ b) n s =
        inFlightStates others a n s ++
          inFlightStates others b (n + awaitCount a) (play others a n s) := by
  induction a with
  | nil => intro n s; simp [inFlightStates, play, awaitCount]
  | cons e es ih =>
    intro n s
    cases e <;> simp [inFlightStates, play, awaitCount, ih, Nat.add_assoc, Nat.add_comm 1]

/-- There are two recorded states for every suspension. -/
theorem length_inFlightStates (others : Nat → UIState → UIState) (evs : List Event) :
    ∀ (n : Nat) (s : UIState),
      (inFlightStates others evs n s).length = 2 * awaitCount evs := by
  induction evs with
  | nil => intro n s; rfl
  | cons e es ih =>
    intro n s
    cases e <;> simp [inFlightStates, awaitCount, ih]; omega

/-- While no event sets the in-progress flag and the other handlers leave it
alone, a flag that is set stays set through every suspension. -/
theorem isEnhancing_inFlightStates (others : Nat → UIState → UIState)
    (hothers : ∀ n t, (others n t).isEnhancing = t.isEnhancing) (evs : List Event) :
    ∀ (n : Nat) (s : UIState), noFlagWrite evs = true → s.isEnhancing = true →
      ∀ t ∈ inFlightStates others evs n s, t.isEnhancing = true := by
  induction evs with
  | nil => intro n s _ _ t ht; simp [inFlightStates] at ht
  | cons e es ih =>
    intro n s hno hs t ht
    have hes : noFlagWrite es = true := by
      rw [noFlagWrite_cons] at hno
      exact (Bool.and_eq_true _ _ ▸ hno).2
    cases e with
    | await =>
      simp only [inFlightStates, List.mem_cons] at ht
      rcases ht with ht | ht | ht
      · rw [ht]; exact hs
      · rw [ht, hothers]; exact hs
      · exact ih (n + 1) (others n s) hes (by rw [hothers]; exact hs) t ht
    | setIsEnhancing b => simp at hno
    | setUser u => exact ih n (applyEvent s (.setUser u)) hes hs t ht
    | setLoading b => exact ih n (applyEvent s (.setLoading b)) hes hs t ht
    | setVibe v => exact ih n (applyEvent s (.setVibe v)) hes hs t ht
    | setMessage m => exact ih n (applyEvent s (.setMessage m)) hes hs t ht
    | setInputImage i => exact ih n (applyEvent s (.setInputImage i)) hes hs t ht
    | setGeneratedImage g => exact ih n (applyEvent s (.setGeneratedImage g)) hes hs t ht
    | setDoc path text lastUpdated merge => exact ih n (applyEvent s (.setDoc path text lastUpdated merge)) hes hs t ht
    | onSnapshot path => exact ih n (applyEvent s (.onSnapshot path)) hes hs t ht
    | fetch url method body => exact ih n (applyEvent s (.fetch url method body)) hes hs t ht
    | setTimeout ms => exact ih n (applyEvent s (.setTimeout ms)) hes hs t ht
    | signOut => exact ih n (applyEvent s (.signOut)) hes hs t ht
    | readAsDataURL => exact ih n (applyEvent s (.readAsDataURL)) hes hs t ht
    | consoleLog label => exact ih n (applyEvent s (.consoleLog label)) hes hs t ht
    | consoleError label error => exact ih n (applyEvent s (.consoleError label error)) hes hs t ht

/-- C7: at every suspension of the run of a valid submission (the store write,
each pending `fetch`, each retry wait), with the other handlers free to change
every cell but the in-progress flag, the flag is set, so the Enhance button of
line 288 is disabled and a submission made then is rejected: it performs no
store write and no remote invocation and changes no cell of the in-flight
request. -/
theorem clickEnhance_rejected_in_flight (w w2 : World) (s : UIState) (user : User)
    (img : String) (others : Nat → UIState → UIState)
    (hu : s.user = some user) (hi : s.inputImage = some img) (hne : img ≠ "")
    (hv : s.vibe ≠ "")
    (hothers : ∀ n t, (others n t).isEnhancing = t.isEnhancing) :
    ({ s with isEnhancing := true, generatedImage := none, message := "Enhancing photo..." } :
        UIState) ∈ inFlightStates others (handleEnhancePhoto w s) 0 s ∧
    (inFlightStates others (handleEnhancePhoto w s) 0 s).length =
      2 * awaitCount (handleEnhancePhoto w s) ∧
    ∀ t ∈ inFlightStates others (handleEnhancePhoto w s) 0 s,
      t.isEnhancing = true ∧
      enhanceDisabled t = true ∧
      clickEnhance w2 t = [] ∧
      storeWrites (clickEnhance w2 t) = [] ∧
      fetchCount (clickEnhance w2 t) = 0 ∧
      ∀ (others2 : Nat → UIState → UIState) (n : Nat),
        play others2 (clickEnhance w2 t) n t = t := by
  have hshape : handleEnhancePhoto w s =
      [Event.setIsEnhancing true, Event.setGeneratedImage none,
       Event.setMessage "Enhancing photo...",
       Event.setDoc (vibeDocPath w.appId user.uid) s.vibe w.now true] ++
      (([Event.await] ++
        (if w.setDocFails = true then [Event.consoleError "Error saving prompt:" JsError.external]
         else []) ++
        fetchWithRetry w s.vibe (base64ImageDataOf img) 0 ++ [Event.await]) ++
       [Event.setIsEnhancing false]) := by
    rw [handleEnhancePhoto_valid w s user img hu hi hne hv]
    simp
  have hmid : noFlagWrite ([Event.await] ++
        (if w.setDocFails = true then [Event.consoleError "Error saving prompt:" JsError.external]
         else []) ++
        fetchWithRetry w s.vibe (base64ImageDataOf img) 0 ++ [Event.await]) = true := by
    have h := noFlagWrite_fetchWithRetry w s.vibe (base64ImageDataOf img) 3 0 rfl
    cases w.setDocFails <;> simp [h]
  have hstates : inFlightStates others (handleEnhancePhoto w s) 0 s =
      inFlightStates others ([Event.await] ++
        (if w.setDocFails = true then [Event.consoleError "Error saving prompt:" JsError.external]
         else []) ++
        fetchWithRetry w s.vibe (base64ImageDataOf img) 0 ++ [Event.await]) 0
        { s with isEnhancing := true, generatedImage := none,
                 message := "Enhancing photo..." } := by
    rw [hshape, inFlightStates_append, inFlightStates_append]
    simp [inFlightStates, play, applyEvent, awaitCount]
  refine ⟨?_, length_inFlightStates others _ 0 s, ?_⟩
  · rw [hstates]
    simp [inFlightStates]
  · intro t ht
    rw [hstates] at ht
    have hflag : t.isEnhancing = true :=
      isEnhancing_inFlightStates others hothers _ 0 _ hmid rfl t ht
    have hdis : enhanceDisabled t = true := by
      simp [enhanceDisabled, hflag]
    have hev : clickEnhance w2 t = [] := by
      simp [clickEnhance, hdis]
    refine ⟨hflag, hdis, hev, ?_, ?_, ?_⟩
    · rw [hev]; rfl
    · rw [hev]; rfl
    · intro others2 n
      rw [hev]; rfl

/-- Instance of C7: the sample request with a sign-out while the first call of
`fetch` is pending; a click on entering the first suspension does nothing. -/
theorem clickEnhance_rejected_in_flight_witness :
    (∀ n t, (signOutAt (worldWith threeErrorsThenImage) 1 n t).isEnhancing = t.isEnhancing) ∧
    inFlightState ∈
      inFlightStates (signOutAt (worldWith threeErrorsThenImage) 1)
        (handleEnhancePhoto (worldWith threeErrorsThenImage) sampleState) 0 sampleState ∧
    clickEnhance (worldWith threeErrorsThenImage) inFlightState = [] :=
  have hothers : ∀ n t,
      (signOutAt (worldWith threeErrorsThenImage) 1 n t).isEnhancing = t.isEnhancing := by
    intro n t
    unfold signOutAt
    split <;> rfl
  have h := clickEnhance_rejected_in_flight (worldWith threeErrorsThenImage)
    (worldWith threeErrorsThenImage) sampleState { uid := "u1" }
    "data:image/jpeg;base64,/9j/4AAQ" (signOutAt (worldWith threeErrorsThenImage) 1)
    rfl rfl (by decide) (by decide) hothers
  ⟨hothers, h.1, (h.2.2 inFlightState h.1).2.2.1⟩

/-! ## Signing out while a request is in flight -/

/-- C8 at a sign-out while the first call of `fetch` is pending: the sign-out
clears the identity and the images (lines 82-84), and the run that was in
flight then stores the generated image and the success message (or, when
every attempt fails, the failure message) in the cells of the signed-out
user; no identity is compared at completion. -/
theorem result_applied_after_sign_out :
    (signOutEffect (worldWith imageAtOnce) inFlightState).user = none ∧
    (signOutEffect (worldWith imageAtOnce) inFlightState).generatedImage = none ∧
    (play (signOutAt (worldWith imageAtOnce) 1)
      (handleEnhancePhoto (worldWith imageAtOnce) sampleState) 0 sampleState).user = none ∧
    (play (signOutAt (worldWith imageAtOnce) 1)
      (handleEnhancePhoto (worldWith imageAtOnce) sampleState) 0 sampleState).generatedImage =
        some "data:image/png;base64,iVBORw0KGgo=" ∧
    (play (signOutAt (worldWith imageAtOnce) 1)
      (handleEnhancePhoto (worldWith imageAtOnce) sampleState) 0 sampleState).message =
        "Photo enhanced successfully!" ∧
    (play (signOutAt (worldWith fun _ => .response 500 none) 1)
      (handleEnhancePhoto (worldWith fun _ => .response 500 none) sampleState) 0
      sampleState).user = none ∧
    (play (signOutAt (worldWith fun _ => .response 500 none) 1)
      (handleEnhancePhoto (worldWith fun _ => .response 500 none) sampleState) 0
      sampleState).message = "Failed to enhance photo. Check the console for details." := by
  rw [handleEnhancePhoto_imageAtOnce sampleState rfl rfl rfl,
    handleEnhancePhoto_always500 sampleState rfl rfl rfl]
  exact ⟨rfl, rfl, rfl, rfl, rfl, rfl, rfl⟩

/-! ## The mime type sent with the image -/

/-- C9 at a JPEG upload: the cells hold the data URI of an image/jpeg file,
and the only request body of the run declares the image as image/png (with the
data taken from the URI). -/
theorem payload_mimeType_of_jpeg_upload :
    handleImageUpload (some { type := "image/jpeg", base64 := "/9j/4AAQ" }) =
      [Event.readAsDataURL, Event.setMessage "Image uploaded. Now add a prompt and enhance!",
       Event.await, Event.setInputImage sampleState.inputImage] ∧
    requestBodies (handleEnhancePhoto (worldWith imageAtOnce) sampleState) =
      [ { contents :=
            [ { role := "user",
                parts :=
                  [ { text := some "neon glow", inlineData := none },
                    { text := none,
                      inlineData := some { mimeType := some "image/png",
                                           data := some "/9j/4AAQ" } } ] } ] } ] := by
  rw [handleEnhancePhoto_imageAtOnce sampleState rfl rfl rfl]
  exact ⟨rfl, rfl⟩

/-! ## The loading flag -/

/-- C10 at a signed-in notification: the listener returns at line 50 before
line 56, so a notification that carries an identity leaves the loading flag
as it was; from the initial cells the screen stays "Initializing...".  A
notification that carries none clears the flag. -/
theorem onAuthStateChanged_signed_in_keeps_loading (w : World) (u : User) (s : UIState) :
    (play quiet (onAuthStateChanged w (some u)) 0 s).loading = s.loading ∧
    (play quiet (onAuthStateChanged w (some u)) 0 initialState).loading = true ∧
    screen (play quiet (onAuthStateChanged w (some u)) 0 initialState) = Screen.initializing ∧
    (play quiet (onAuthStateChanged w none) 0 s).loading = false :=
  ⟨rfl, rfl, rfl, rfl⟩

end VibeCode
